import Mathlib

/-
  Verification development for the tiktokdiscogs content pipeline.

  Shallow embedding of the core modules:
  - src/modules/discogsService.js  (rateLimitedFetch, fetchRandomRelease,
    probe deduplication, seenReleases eviction, clearSession)
  - src/modules/channelService.js  (fetchRandomVideo, seenVideos eviction)
  - src/modules/dataBuffer.js      (startPipeline, stopPipeline,
    runDiscogsLoop, runYoutubeLoop, runChannelsLoop; generation tokens)
  - src/modules/feedManager.js     (handleCardVisible, createPlayerIfNeeded,
    destroyPlayerIfExists; rolling player window)

  JavaScript numbers, ids and timestamps are modelled as Nat; JS Sets with
  insertion order are modelled as duplicate-free lists (head = oldest);
  async/await interleavings are modelled by explicit action traces over a
  step function (JS run-to-completion: a synchronous block between two
  awaits is one atomic step).
-/

namespace TikTokDiscogs

/-! ## Seen-set model (JS `Set` with insertion-order iteration)

`seenReleases.add(id)` is a no-op on a present element and appends an
absent one; `seen.delete(seen.values().next().value)` removes the head
(first-inserted = oldest) element.  Both discogsService (cap 2000) and
channelService (cap 500) use the pattern
`seen.add(id); if (seen.size > cap) seen.delete(oldest)`. -/

/-- JS `Set.add`: no change when the element is present, append otherwise. -/
def setAdd (seen : List Nat) (id : Nat) : List Nat :=
  if id ∈ seen then seen else seen ++ [id]

/-- The post-add capacity check: `if (seen.size > cap) seen.delete(oldest)`;
the oldest element is the list head. -/
def evictIfOver (cap : Nat) (seen : List Nat) : List Nat :=
  if cap < seen.length then seen.drop 1 else seen

/-- One complete seen-set update as performed after choosing a candidate:
add, then evict the oldest entry when over capacity. -/
def addSeenOp (cap : Nat) (seen : List Nat) (id : Nat) : List Nat :=
  evictIfOver cap (setAdd seen id)

/-! ## rateLimitedFetch (discogsService.js lines 171-184)

`rateLimitedFetch` reads `elapsed = Date.now() - lastDiscogsCall`; when
`elapsed < 400` it sleeps `400 - elapsed` ms, waking at
`lastDiscogsCall + 400`; it then sets `lastDiscogsCall = Date.now()` and
dispatches the fetch.  The dispatch instant therefore is
`last + 400` when the arrival is within the floor and the arrival time
otherwise, and `lastDiscogsCall` is updated to exactly that instant.
Calls are serialized (each next call arrives no earlier than the
previous dispatch), matching the single sequential pipeline loop. -/

/-- Dispatch instant of one `rateLimitedFetch` call: `last` is the stored
`lastDiscogsCall`, `now` the arrival time (`Date.now()` at entry). -/
def rateLimitedFetch (last now : Nat) : Nat :=
  if now - last < 400 then last + 400 else now

/-- Dispatch log of a sequence of serialized `rateLimitedFetch` calls:
pairs each arrival time with its dispatch instant, threading
`lastDiscogsCall` through. -/
def dispatchLog : Nat → List Nat → List (Nat × Nat)
  | _, [] => []
  | last, now :: rest =>
      let d := rateLimitedFetch last now
      (now, d) :: dispatchLog d rest

/-- Serialization condition: each call arrives no earlier than the previous
call's dispatch (the loops await each fetch before issuing the next). -/
def arrivalsOk : Nat → List Nat → Bool
  | _, [] => true
  | last, now :: rest => decide (last ≤ now) && arrivalsOk (rateLimitedFetch last now) rest

/-! ## clearSession (discogsService.js lines 426-435)

`clearSession` runs `Object.keys(m).forEach(k => delete m[k])` on each of
`criteriaReleasePools`, `totalPagesCache` and `pendingPageProbes`, and
does not touch `seenReleases`.  The three caches are modelled as
association lists keyed by the criteria key. -/

/-- JS `delete m[k]` over an association-list object. -/
def deleteKey (m : List (Nat × Nat)) (k : Nat) : List (Nat × Nat) :=
  m.filter (fun e => e.1 ≠ k)

/-- `Object.keys(m).forEach(k => delete m[k])`. -/
def deleteAllKeys (m : List (Nat × Nat)) : List (Nat × Nat) :=
  (m.map Prod.fst).foldl deleteKey m

/-- Module-level mutable state of discogsService touched by `clearSession`. -/
structure DiscogsCaches where
  totalPagesCache : List (Nat × Nat)
  pendingPageProbes : List (Nat × Nat)
  criteriaReleasePools : List (Nat × Nat)
  seenReleases : List Nat
  deriving Repr, DecidableEq

/-- discogsService.clearSession: empty the three per-criteria caches,
leave `seenReleases` alone. -/
def clearSession (s : DiscogsCaches) : DiscogsCaches :=
  { s with
    criteriaReleasePools := deleteAllKeys s.criteriaReleasePools
    totalPagesCache := deleteAllKeys s.totalPagesCache
    pendingPageProbes := deleteAllKeys s.pendingPageProbes }

/-! ## fetchRandomRelease (discogsService.js lines 187-321), sequential run

The retry loop `for (attempt = 0; attempt <= maxRetries; attempt++)` with
`maxRetries = 5`.  Each attempt:
1. reads `totalPagesCache[criteriaKey]`; on a miss it creates (or awaits)
   the pending probe promise: the probe fetch either fails
   (`TOO_MANY_REQUESTS` on 429, a generic API error otherwise, or
   `ZERO_RESULTS` when `results` is empty) or resolves, setting
   `totalPagesCache[criteriaKey] = min(pagination.items, 10000)`;
   on failure the awaiting caller deletes the pending entry and rethrows;
2. draws `randomPage = floor(random() * maxItems) + 1` and, when
   `randomPage > 1` or no probe data is at hand, fetches that page
   (failing like the probe on a bad status);
3. fails with a generic error when the chosen page has no results;
4. `continue`s to the next attempt when `results[0].id` is in
   `seenReleases` (no fallback to the seen candidate);
5. otherwise records the id (capacity 2000, oldest evicted) and returns.
A caught error is rethrown when `attempt === maxRetries` and otherwise
retried after a backoff; falling off the loop end (a seen candidate on the
last attempt) resolves to `undefined`, modelled as `.ok none`.
The network and `Math.random` are an oracle giving each attempt its probe
outcome, page-fetch outcome and random draw. -/

/-- Errors thrown inside `fetchRandomRelease`.  Only `zeroResults` carries
the `err.code === 'ZERO_RESULTS'` marker the Stage-1 loop tests for. -/
inductive FetchErr where
  | zeroResults
  | tooManyRequests
  | apiError (status : Nat)
  | emptyPage
  deriving Repr, DecidableEq

/-- Oracle for one attempt: the probe response (`pagination.items` and
`results[0].id` of page 1), the random-page response (`results[0].id`, or
`none` for an empty page), and the raw random draw. -/
structure AttemptEnv where
  probe : Except FetchErr (Nat × Nat)
  pageFetch : Except FetchErr (Option Nat)
  rand : Nat
  deriving Repr

/-- Module-level discogsService state threaded through one
`fetchRandomRelease` call, for a single criteria key, plus call counters
observing network traffic. -/
structure DiscogsState where
  totalPagesCache : Option Nat
  pendingProbe : Option (Nat × Nat)
  seenReleases : List Nat
  probeCalls : Nat
  pageCalls : Nat
  deriving Repr, DecidableEq

/-- Outcome of one loop body iteration: a returned release id, the
`continue` taken on an already-seen candidate, or a thrown error. -/
inductive AttemptOutcome where
  | success (id : Nat)
  | seenSkip
  | failed (e : FetchErr)
  deriving Repr, DecidableEq

/-- Steps 4-5 on the chosen page's single candidate (`per_page = 1`):
`continue` when `results[0].id` is in `seenReleases`, else record it
(capacity 2000) and return it. -/
def seenCheck (st : DiscogsState) (id : Nat) : DiscogsState × AttemptOutcome :=
  if id ∈ st.seenReleases then (st, .seenSkip)
  else ({ st with seenReleases := addSeenOp 2000 st.seenReleases id },
        .success id)

/-- Steps 2-5 of an attempt, after `maxItems` is known: pick the random
page, fetch it when `randomPage > 1` or no probe data is in hand
(`!data`), fail on an empty page, then run the seen check on the
candidate. -/
def runAttemptAfterProbe (st : DiscogsState) (env : AttemptEnv)
    (maxItems : Nat) (probeData : Option Nat) : DiscogsState × AttemptOutcome :=
  if env.rand % maxItems + 1 > 1 ∨ probeData = none then
    match env.pageFetch with
    | .error e => ({ st with pageCalls := st.pageCalls + 1 }, .failed e)
    | .ok none => ({ st with pageCalls := st.pageCalls + 1 }, .failed .emptyPage)
    | .ok (some id) => seenCheck { st with pageCalls := st.pageCalls + 1 } id
  else
    match probeData with
    | none => (st, .failed .emptyPage)
    | some id => seenCheck st id

/-- One iteration of the `for` body.  On a `totalPagesCache` miss with no
pending probe, the probe promise is created and awaited (one network
call); a failed probe deletes the pending entry before rethrowing; a
successful probe caches `min(items, 10000)` and leaves its promise in
`pendingPageProbes`. -/
def runAttempt (st : DiscogsState) (env : AttemptEnv) : DiscogsState × AttemptOutcome :=
  match st.totalPagesCache with
  | some maxItems => runAttemptAfterProbe st env maxItems none
  | none =>
      match st.pendingProbe with
      | some pd =>
          -- awaiting an already-resolved probe promise: its body has set the
          -- cache to min(items, 10000) when it resolved
          runAttemptAfterProbe
            { st with totalPagesCache := some (min pd.1 10000) } env
            (min pd.1 10000) (some pd.2)
      | none =>
          match env.probe with
          | .error e =>
              ({ st with probeCalls := st.probeCalls + 1, pendingProbe := none },
               .failed e)
          | .ok pd =>
              runAttemptAfterProbe
                { st with
                  probeCalls := st.probeCalls + 1
                  pendingProbe := some pd
                  totalPagesCache := some (min pd.1 10000) } env
                (min pd.1 10000) (some pd.2)

/-- The retry loop, counting down the remaining attempts after the current
one; `attempt` is the current index, as in the source.  On the last
attempt an error is rethrown and a seen candidate falls off the loop end
(resolving to `undefined` = `.ok none`). -/
def fetchGo (envs : Nat → AttemptEnv) :
    Nat → Nat → DiscogsState → DiscogsState × Except FetchErr (Option Nat)
  | 0, attempt, st =>
      match runAttempt st (envs attempt) with
      | (st1, .success id) => (st1, .ok (some id))
      | (st1, .seenSkip) => (st1, .ok none)
      | (st1, .failed e) => (st1, .error e)
  | remaining + 1, attempt, st =>
      match runAttempt st (envs attempt) with
      | (st1, .success id) => (st1, .ok (some id))
      | (st1, .seenSkip) => fetchGo envs remaining (attempt + 1) st1
      | (st1, .failed _) => fetchGo envs remaining (attempt + 1) st1

/-- `maxRetries` of discogsService.fetchRandomRelease. -/
def maxRetries : Nat := 5

/-- discogsService.fetchRandomRelease under oracle `envs`: attempts
`0..maxRetries`, returning the release id, or `undefined` (`.ok none`),
or throwing the last error. -/
def fetchRandomRelease (envs : Nat → AttemptEnv) (st : DiscogsState) :
    DiscogsState × Except FetchErr (Option Nat) :=
  fetchGo envs maxRetries 0 st

/-! ## Probe deduplication across concurrent callers
    (discogsService.js lines 229-265)

JS run-to-completion: the block from `if (!maxItems)` through
`data = await pendingPageProbes[criteriaKey]` runs synchronously up to
the `await`, so per caller it is one atomic step.  A caller finding no
cached count and no pending entry stores a fresh promise (one network
call) and awaits it; a caller finding a pending entry awaits that same
promise; a caller finding a cached count skips the probe.  When the
probe promise settles, every awaiting caller resumes with the same
outcome; the promise body has set `totalPagesCache[criteriaKey]` on
success, and each failed awaiter deletes the pending entry. -/

/-- Shared probe-deduplication state for one criteria key.  `pending`
holds the token (creation index) of the stored in-flight promise;
`waiting` records which caller awaits which token. -/
structure ProbeSysState where
  cache : Option Nat
  pending : Option Nat
  nextToken : Nat
  probeCalls : Nat
  waiting : List (Nat × Nat)
  deriving Repr, DecidableEq

/-- State before any caller arrives: nothing cached, nothing pending. -/
def probeInit : ProbeSysState :=
  { cache := none, pending := none, nextToken := 0, probeCalls := 0, waiting := [] }

/-- Synchronous arrival section of one `fetchRandomRelease` caller:
`if (!totalPagesCache[key]) { if (!pendingPageProbes[key]) { store new
promise (network call) } ; await pendingPageProbes[key] }`. -/
def probeArrive (s : ProbeSysState) (caller : Nat) : ProbeSysState :=
  match s.cache with
  | some _ => s
  | none =>
      match s.pending with
      | some t => { s with waiting := s.waiting ++ [(caller, t)] }
      | none =>
          { s with
            pending := some s.nextToken
            nextToken := s.nextToken + 1
            probeCalls := s.probeCalls + 1
            waiting := s.waiting ++ [(caller, s.nextToken)] }

/-- The probe promise resolves with `pagination.items = items`: its body
sets the cache to `min(items, 10000)` and every awaiting caller resumes
with that same response; the pending entry stays in place. -/
def probeResolveOk (s : ProbeSysState) (items : Nat) :
    ProbeSysState × List (Nat × Nat) :=
  ({ s with cache := some (min items 10000), waiting := [] },
   s.waiting.map (fun w => (w.1, items)))

/-- The probe promise rejects: every awaiting caller resumes in its catch
block, which deletes the pending entry (idempotently) and rethrows; the
cache stays empty. -/
def probeResolveFail (s : ProbeSysState) : ProbeSysState × List Nat :=
  ({ s with pending := none, waiting := [] }, s.waiting.map Prod.fst)

/-! ## channelService.fetchRandomVideo (channelService.js lines 74-116)

After the chosen channel's pool is at hand: filter it against
`seenVideos`; when every pool entry was seen, fall back to the whole
pool; pick `candidates[floor(random()*length)]`; record the id in
`seenVideos` (capacity 500, oldest evicted); return an album whose
`youtubeVideoIds` is exactly `[videoId]` and whose `youtubePlaylistId`
is `null`.  The pool holds the video ids (`contentDetails.videoId`,
filtered truthy by `loadMoreVideos`). -/

/-- Per-call channelService state: the selected channel's cached pool and
the module-level `seenVideos`. -/
structure ChannelState where
  pool : List Nat
  seenVideos : List Nat
  deriving Repr, DecidableEq

/-- channelService.fetchRandomVideo with random draw `k`: `none` models
the `null` return on an empty pool; `some v` the returned album, which
carries `youtubeVideoIds = [v]`.  The candidate lookup
`candidates[floor(random()*length)]` is in bounds whenever the pool is
non-empty, so the `none` arm of the lookup is unreachable here. -/
def fetchRandomVideo (st : ChannelState) (k : Nat) : ChannelState × Option Nat :=
  if st.pool.isEmpty then (st, none)
  else
    let unseen := st.pool.filter (fun v => v ∉ st.seenVideos)
    let candidates := if unseen.isEmpty then st.pool else unseen
    match candidates.get? (k % candidates.length) with
    | none => (st, none)
    | some videoId =>
        ({ st with seenVideos := addSeenOp 500 (st.seenVideos) videoId },
         some videoId)

/-! ## dataBuffer pipeline (dataBuffer.js)

Cooperative-concurrency trace semantics.  Each action is one atomic
synchronous block of one loop (bounded by awaits), scheduled in any
order:

- `startPipeline` (lines 13-31): `_generation++`, clear both queues, set
  `isRunning`, spawn `runDiscogsLoop(gen)` and `runYoutubeLoop(gen)`;
- `stopPipeline` (lines 88-91): clear `isRunning`, `_generation++`;
- `dBegin g` (lines 94-99): the token-`g` Discogs loop passes its while
  check (`isRunning && _generation === gen`), finds
  `albumQueue.length < 15`, and starts awaiting `fetchRandomRelease`;
- `dOk g ids pl` (lines 99-105): that await resolves with an album;
  the loop pushes it whenever it has a video or playlist id — with NO
  further generation check between the await and the push;
- `dNone g` (lines 99-105): the await resolves `undefined`; the
  `album &&` guard skips the push;
- `dErr g e` (lines 106-114): the await rejects; on
  `err.code === 'ZERO_RESULTS'` the catch dispatches the `zeroResults`
  event and calls `stopPipeline()`; any other error only sleeps;
- `yStep g k` (lines 122-144): one synchronous body of the token-`g`
  YouTube loop: under `isRunning && _generation === gen`, when
  `readyQueue.length < 5 && albumQueue.length > 0`, shift an album, draw
  `videoId` from its `youtubeVideoIds` (`null` when empty), and push
  `{album, videoId}` only `if (videoId || album.youtubePlaylistId)`;
- `chBegin g` / `chOk g v` (lines 59-77): the token-`g` channels loop
  passes its while check with `readyQueue.length < 5` and awaits
  `fetchRandomVideo`; on an album (whose `youtubeVideoIds` is `[v]`,
  per channelService) it pushes `{album, videoId: youtubeVideoIds[0]}`
  only after re-checking `this._generation === gen`.

Albums carry a ghost field `sampledGen`: the generation current when
their fetch was issued (= the issuing loop's token). -/

/-- A sampled album as the pipeline sees it: its YouTube video ids, its
optional playlist id, and the ghost generation under which it was
sampled. -/
structure Album where
  youtubeVideoIds : List Nat
  youtubePlaylistId : Option Nat
  sampledGen : Nat
  deriving Repr, DecidableEq

/-- A ready-queue record: `{ album, videoId }`. -/
structure ReadyRecord where
  album : Album
  videoId : Option Nat
  deriving Repr, DecidableEq

/-- DOM events the pipeline dispatches. -/
inductive PipeEvent where
  | zeroResults
  | channelLoadError
  deriving Repr, DecidableEq

/-- Whole-pipeline state: dataBuffer fields plus the multiset of awaited
Discogs fetches (`dFetches`), awaited channel fetches (`chFetches`), each
tagged with the issuing loop's token, and the dispatched events. -/
structure BufState where
  albumQueue : List Album
  readyQueue : List ReadyRecord
  isRunning : Bool
  generation : Nat
  dFetches : List Nat
  chFetches : List Nat
  events : List PipeEvent
  deriving Repr, DecidableEq

/-- dataBuffer before any pipeline is started. -/
def bufInit : BufState :=
  { albumQueue := [], readyQueue := [], isRunning := false, generation := 0,
    dFetches := [], chFetches := [], events := [] }

/-- Scheduler actions; see the section comment for the source lines each
one embeds. -/
inductive BufAct where
  | startPipeline
  | stopPipeline
  | dBegin (g : Nat)
  | dOk (g : Nat) (ids : List Nat) (pl : Option Nat)
  | dNone (g : Nat)
  | dErr (g : Nat) (e : FetchErr)
  | yStep (g : Nat) (k : Nat)
  | chBegin (g : Nat)
  | chOk (g : Nat) (v : Nat)
  deriving Repr, DecidableEq

/-- One scheduled atomic step. -/
def bufStep (s : BufState) : BufAct → BufState
  | .startPipeline =>
      { s with
        generation := s.generation + 1
        albumQueue := []
        readyQueue := []
        isRunning := true }
  | .stopPipeline =>
      { s with isRunning := false, generation := s.generation + 1 }
  | .dBegin g =>
      if s.isRunning ∧ s.generation = g ∧ s.albumQueue.length < 15 then
        { s with dFetches := s.dFetches ++ [g] }
      else s
  | .dOk g ids pl =>
      if g ∈ s.dFetches then
        let s1 := { s with dFetches := s.dFetches.erase g }
        let album : Album :=
          { youtubeVideoIds := ids, youtubePlaylistId := pl, sampledGen := g }
        -- hasVideo || hasPlaylist: no generation re-check here (the bug)
        if ids.length > 0 ∨ pl.isSome then
          { s1 with albumQueue := s1.albumQueue ++ [album] }
        else s1
      else s
  | .dNone g =>
      if g ∈ s.dFetches then { s with dFetches := s.dFetches.erase g } else s
  | .dErr g e =>
      if g ∈ s.dFetches then
        let s1 := { s with dFetches := s.dFetches.erase g }
        if e = .zeroResults then
          { s1 with
            events := s1.events ++ [.zeroResults]
            isRunning := false
            generation := s1.generation + 1 }
        else s1
      else s
  | .yStep g k =>
      if s.isRunning ∧ s.generation = g ∧ s.readyQueue.length < 5 then
        match s.albumQueue with
        | [] => s
        | album :: rest =>
            let videoId : Option Nat :=
              if hv : album.youtubeVideoIds.length > 0 then
                some (album.youtubeVideoIds.get ⟨k % album.youtubeVideoIds.length,
                  Nat.mod_lt _ hv⟩)
              else none
            if videoId.isSome ∨ album.youtubePlaylistId.isSome then
              { s with albumQueue := rest
                       readyQueue := s.readyQueue ++ [⟨album, videoId⟩] }
            else { s with albumQueue := rest }
      else s
  | .chBegin g =>
      if s.isRunning ∧ s.generation = g ∧ s.readyQueue.length < 5 then
        { s with chFetches := s.chFetches ++ [g] }
      else s
  | .chOk g v =>
      if g ∈ s.chFetches then
        let s1 := { s with chFetches := s.chFetches.erase g }
        if s1.generation = g then
          { s1 with readyQueue := s1.readyQueue ++
              [⟨{ youtubeVideoIds := [v], youtubePlaylistId := none,
                  sampledGen := g }, some v⟩] }
        else s1
      else s

/-- Run a scheduled trace from a state. -/
def bufRun (s : BufState) (acts : List BufAct) : BufState :=
  acts.foldl bufStep s

/-! ## feedManager rolling player window (feedManager.js lines 339-571)

`cardBuffer` is the slot list; a slot is modelled by whether it is
`ready` (state `'ready'` with its DOM element attached — `renderCard`
sets both together), whether a player resource is alive
(`playerInstance !== null`), and whether a player creation is in flight
(`_creatingPromise !== null`) — creation is asynchronous:
`videoPlayer.createPlayer` resolves later (YT API ready + player
onReady), and only its `.then` sets `playerInstance` (lines 493-497).
`createPlayerIfNeeded(i)` (lines 476-500) bounds-checks `i`, requires a
ready slot with no player, and starts a creation unless one is already
in flight.  `destroyPlayerIfExists(i)` (lines 502-514) bounds-checks and
returns early when `playerInstance` is null — WITHOUT cancelling an
in-flight `_creatingPromise` (line 505), which therefore still sets
`playerInstance` when it later resolves; when a player does exist it is
destroyed and both handles cleared.  `handleCardVisible(i)`
(lines 516-571): skip when already current with a live player and not
navigating; set `currentIndex = i`; create players at
`i-1, i, i+1, i+2, i+3`; destroy players at exactly `i-2` and `i+4`;
then `preloadCards` appends loading slots up to `i + 8`, each resolved
asynchronously by `renderCard` (lines 378-387, 401-474), which marks the
slot ready and creates its player whenever the slot is within distance 2
of the CURRENT position (lines 466-468, so also at `i-2`), and re-enters
`handleCardVisible` when the slot is the current one (lines 471-473).
The scheduler actions `resolveCreate` and `resolveData` deliver the two
kinds of promise resolution at any later point of the trace. -/

/-- One `cardBuffer` slot: `state === 'ready'` (with DOM element),
`playerInstance !== null`, `_creatingPromise !== null`. -/
structure Card where
  ready : Bool
  player : Bool
  creating : Bool
  deriving Repr, DecidableEq

/-- feedManager state relevant to the player window. -/
structure FeedState where
  cards : List Card
  currentIndex : Nat
  isNavigating : Bool
  deriving Repr, DecidableEq

/-- feedManager.createPlayerIfNeeded: in bounds, ready, no player yet,
and no creation already in flight — then start a creation (the player
itself materializes only when the creation resolves; positions are
signed: `index - 1` may be `-1`). -/
def createPlayerIfNeeded (cards : List Card) (i : Int) : List Card :=
  if i < 0 ∨ i ≥ cards.length then cards
  else
    match cards.get? i.toNat with
    | none => cards
    | some c =>
        if c.ready ∧ ¬c.player ∧ ¬c.creating then
          cards.set i.toNat { c with creating := true }
        else cards

/-- feedManager.destroyPlayerIfExists: in bounds and a live player —
otherwise an early return that leaves an in-flight creation running; on
destruction both `playerInstance` and `_creatingPromise` are cleared. -/
def destroyPlayerIfExists (cards : List Card) (i : Int) : List Card :=
  if i < 0 ∨ i ≥ cards.length then cards
  else
    match cards.get? i.toNat with
    | none => cards
    | some c =>
        if c.player then
          cards.set i.toNat { c with player := false, creating := false }
        else cards

/-- feedManager.preloadCards: append loading slots until
`cardBuffer.length ≥ currentIndex + 8`. -/
def preloadCards (cards : List Card) (currentIndex : Nat) : List Card :=
  cards ++ List.replicate (currentIndex + 8 - cards.length)
    { ready := false, player := false, creating := false }

/-- Whether the slot at index `n` holds a live player
(`cardBuffer[n] && cardBuffer[n].playerInstance`). -/
def playerAt (cards : List Card) (n : Nat) : Bool :=
  match cards.get? n with
  | some c => c.player
  | none => false

/-- feedManager.handleCardVisible: skip when already current with a live
player and not navigating; otherwise set `currentIndex := index`, start
player creations at `index-1 .. index+3` (in that order), destroy the
players at `index-2` and `index+4`, then preload slots up to
`index+8`. -/
def handleCardVisible (s : FeedState) (index : Nat) : FeedState :=
  if decide (s.currentIndex = index) && !s.isNavigating && playerAt s.cards index then s
  else
    { cards :=
        preloadCards
          (destroyPlayerIfExists
            (destroyPlayerIfExists
              (createPlayerIfNeeded
                (createPlayerIfNeeded
                  (createPlayerIfNeeded
                    (createPlayerIfNeeded
                      (createPlayerIfNeeded s.cards ((index : Int) - 1))
                      (index : Int))
                    ((index : Int) + 1))
                  ((index : Int) + 2))
                ((index : Int) + 3))
              ((index : Int) - 2))
            ((index : Int) + 4))
          index,
      currentIndex := index, isNavigating := s.isNavigating }

/-- Indices of slots holding a live player. -/
def aliveIdx (s : FeedState) : List Nat :=
  (List.range s.cards.length).filter (playerAt s.cards)

/-- Scheduler actions over the feed: a card becomes ≥50% visible
(`handleCardVisible`), an in-flight `videoPlayer.createPlayer` promise
resolves, or a loading slot's `dataBuffer.consume()` data arrives
(`renderCard`). -/
inductive FeedAct where
  | visible (j : Nat)
  | resolveCreate (n : Nat)
  | resolveData (n : Nat)
  deriving Repr, DecidableEq

/-- One scheduled feed step.  `resolveCreate n`: the `.then` of slot
`n`'s creation sets `playerInstance` and clears `_creatingPromise`
(feedManager.js:493-497) — it runs whenever a creation is in flight,
with no generation- or window-check.  `resolveData n`: the preload
callback calls `renderCard n` (lines 378-387): the slot becomes ready,
`createPlayerIfNeeded(n)` runs when `|n - currentIndex| ≤ 2`
(lines 466-468), and `handleCardVisible n` re-runs when `n` is the
current index (lines 471-473). -/
def feedStep (s : FeedState) : FeedAct → FeedState
  | .visible j => handleCardVisible s j
  | .resolveCreate n =>
      match s.cards.get? n with
      | none => s
      | some c =>
          if c.creating then
            { s with cards := s.cards.set n { c with player := true, creating := false } }
          else s
  | .resolveData n =>
      match s.cards.get? n with
      | none => s
      | some c =>
          if c.ready then s
          else
            let s1 : FeedState :=
              { s with cards := s.cards.set n { c with ready := true } }
            let s2 : FeedState :=
              if n ≤ s1.currentIndex + 2 ∧ s1.currentIndex ≤ n + 2 then
                { s1 with cards := createPlayerIfNeeded s1.cards (n : Int) }
              else s1
            if n = s2.currentIndex then handleCardVisible s2 n else s2

/-- Run a scheduled feed trace. -/
def runFeed (s : FeedState) (acts : List FeedAct) : FeedState :=
  acts.foldl feedStep s

/-- State after a set of concurrent callers has arrived at the probe
section, none of which has yet observed the probe response. -/
def probeFinal (callers : List Nat) : ProbeSysState :=
  callers.foldl probeArrive probeInit

/-! ## Helper lemmas -/

theorem foldl_deleteKey_eq_nil (ks : List Nat) :
    ∀ m : List (Nat × Nat), (∀ e ∈ m, e.1 ∈ ks) → ks.foldl deleteKey m = [] := by
  induction ks with
  | nil =>
      intro m h
      cases m with
      | nil => rfl
      | cons e es => exact absurd (h e (by simp)) (by simp)
  | cons k ks ih =>
      intro m h
      simp only [List.foldl_cons]
      apply ih
      intro e he
      have hmem : e ∈ m := List.mem_of_mem_filter he
      have hne : e.1 ≠ k := by simpa using List.of_mem_filter he
      have := h e hmem
      simp only [List.mem_cons] at this
      exact this.resolve_left hne

theorem deleteAllKeys_eq_nil (m : List (Nat × Nat)) : deleteAllKeys m = [] :=
  foldl_deleteKey_eq_nil (m.map Prod.fst) m
    (fun _e he => List.mem_map_of_mem Prod.fst he)

/-- Claim C9: clearSession (invoked on every pipeline start/reset) empties
exactly the per-criteria caches — totalPagesCache, pendingPageProbes, and
criteriaReleasePools — and leaves the seenReleases set unchanged: every id
present in seenReleases before clearSession is still present after, so the
dedup window survives session resets. -/
theorem clearSession_empties_caches_keeps_seen (s : DiscogsCaches) :
    clearSession s =
      { totalPagesCache := [], pendingPageProbes := [],
        criteriaReleasePools := [], seenReleases := s.seenReleases } ∧
    ∀ id ∈ s.seenReleases, id ∈ (clearSession s).seenReleases := by
  constructor
  · simp [clearSession, deleteAllKeys_eq_nil]
  · intro id hid
    simpa [clearSession] using hid

/-- Claim C9 at a concrete state: the caches come out empty and the seen
ids survive. -/
theorem clearSession_empties_caches_keeps_seen_witness :
    clearSession ⟨[(1, 30)], [(1, 0)], [(2, 8)], [5, 6]⟩ =
      { totalPagesCache := [], pendingPageProbes := [],
        criteriaReleasePools := [], seenReleases := [5, 6] } ∧
    ∀ id ∈ [5, 6], id ∈ (clearSession ⟨[(1, 30)], [(1, 0)], [(2, 8)], [5, 6]⟩).seenReleases :=
  clearSession_empties_caches_keeps_seen ⟨[(1, 30)], [(1, 0)], [(2, 8)], [5, 6]⟩

theorem rateLimitedFetch_lower (last now : Nat) (h : last ≤ now) :
    last + 400 ≤ rateLimitedFetch last now := by
  unfold rateLimitedFetch
  split <;> omega

theorem rateLimitedFetch_exact (last now : Nat) (h : now < last + 400) :
    rateLimitedFetch last now = last + 400 := by
  unfold rateLimitedFetch
  split <;> omega

/-- Spacing contract between two consecutive logged calls: the later
dispatch is at least 400 ms after the earlier one, and a call arriving
inside the floor is dispatched at exactly the 400 ms boundary (it
suspended exactly the remaining delta). -/
def spacingRel (p q : Nat × Nat) : Prop :=
  p.2 + 400 ≤ q.2 ∧ (q.1 < p.2 + 400 → q.2 = p.2 + 400)

/-- Claim C7 as amended: within a serialized sequence of calls through
the rate-limited client — each call entering at or after the previous
call's dispatch, the regime of the pipeline's sequential loops — if the
time elapsed since the previous call's dispatch is below the 400 ms
floor, the later call suspends for exactly the remaining delta before
dispatching, so no two dispatches occur less than 400 ms apart.  The
guarantee is not process-wide across concurrent callers:
`lastDiscogsCall` is written only after the sleep, so two calls entering
during one sleep read the same stale value and can dispatch together
(see the counterexample below the concurrent model). -/
theorem rate_limited_spacing (arrivals : List Nat) (last : Nat)
    (h : arrivalsOk last arrivals = true) :
    List.Chain' spacingRel (dispatchLog last arrivals) := by
  induction arrivals generalizing last with
  | nil => simp [dispatchLog]
  | cons now rest ih =>
      simp only [arrivalsOk, Bool.and_eq_true, decide_eq_true_eq] at h
      obtain ⟨h1, h2⟩ := h
      cases rest with
      | nil => simp [dispatchLog]
      | cons now2 rest2 =>
          have h3 : rateLimitedFetch last now ≤ now2 := by
            have := h2
            simp only [arrivalsOk, Bool.and_eq_true, decide_eq_true_eq] at this
            exact this.1
          simp only [dispatchLog, List.chain'_cons]
          refine ⟨⟨rateLimitedFetch_lower _ _ h3, fun hlt => ?_⟩, ih _ h2⟩
          exact rateLimitedFetch_exact _ _ hlt

/-- Claim C7 on a concrete serialized call sequence: arrivals at 1000,
1100 and 2000 ms dispatch at 1000, 1400 and 2000 ms. -/
theorem rate_limited_spacing_witness :
    arrivalsOk 0 [1000, 1100, 2000] = true ∧
      List.Chain' spacingRel (dispatchLog 0 [1000, 1100, 2000]) :=
  ⟨by decide, rate_limited_spacing [1000, 1100, 2000] 0 (by decide)⟩

theorem addSeenOp_length_le (cap : Nat) (seen : List Nat) (id : Nat)
    (h : seen.length ≤ cap) : (addSeenOp cap seen id).length ≤ cap := by
  have hset : (setAdd seen id).length ≤ cap + 1 := by
    unfold setAdd
    split
    · omega
    · simp only [List.length_append, List.length_cons, List.length_nil]
      omega
  unfold addSeenOp evictIfOver
  split
  · simp only [List.length_drop]
    omega
  · next hno => omega

theorem addSeenOp_evicts_oldest (cap : Nat) (seen : List Nat) (id : Nat)
    (hid : id ∉ seen) (hlen : seen.length = cap) (hcap : 0 < cap) :
    addSeenOp cap seen id = seen.tail ++ [id] := by
  cases seen with
  | nil => rw [List.length_nil] at hlen; omega
  | cons x xs =>
      unfold addSeenOp setAdd evictIfOver
      rw [if_neg hid]
      rw [if_pos (by
        simp only [List.length_append, List.length_cons, List.length_nil] at hlen ⊢
        omega)]
      simp

theorem seenCheck_length_le (st : DiscogsState) (id : Nat)
    (h : st.seenReleases.length ≤ 2000) :
    (seenCheck st id).1.seenReleases.length ≤ 2000 := by
  unfold seenCheck
  split
  · exact h
  · exact addSeenOp_length_le 2000 _ _ h

theorem runAttemptAfterProbe_length_le (st : DiscogsState) (env : AttemptEnv)
    (maxItems : Nat) (probeData : Option Nat)
    (h : st.seenReleases.length ≤ 2000) :
    (runAttemptAfterProbe st env maxItems probeData).1.seenReleases.length ≤ 2000 := by
  unfold runAttemptAfterProbe
  split
  · cases env.pageFetch with
    | error e => exact h
    | ok res =>
        cases res with
        | none => exact h
        | some id => exact seenCheck_length_le _ _ h
  · cases probeData with
    | none => exact h
    | some id => exact seenCheck_length_le _ _ h

theorem runAttempt_length_le (st : DiscogsState) (env : AttemptEnv)
    (h : st.seenReleases.length ≤ 2000) :
    (runAttempt st env).1.seenReleases.length ≤ 2000 := by
  unfold runAttempt
  cases st.totalPagesCache with
  | some maxItems => exact runAttemptAfterProbe_length_le _ _ _ _ h
  | none =>
      cases st.pendingProbe with
      | some pd => exact runAttemptAfterProbe_length_le _ _ _ _ h
      | none =>
          cases env.probe with
          | error e => exact h
          | ok pd => exact runAttemptAfterProbe_length_le _ _ _ _ h

theorem fetchGo_length_le (envs : Nat → AttemptEnv) :
    ∀ (remaining attempt : Nat) (st : DiscogsState),
      st.seenReleases.length ≤ 2000 →
      (fetchGo envs remaining attempt st).1.seenReleases.length ≤ 2000 := by
  intro remaining
  induction remaining with
  | zero =>
      intro attempt st h
      unfold fetchGo
      have hr := runAttempt_length_le st (envs attempt) h
      rcases hru : runAttempt st (envs attempt) with ⟨st1, out⟩
      rw [hru] at hr
      cases out <;> simpa using hr
  | succ n ih =>
      intro attempt st h
      unfold fetchGo
      have hr := runAttempt_length_le st (envs attempt) h
      rcases hru : runAttempt st (envs attempt) with ⟨st1, out⟩
      rw [hru] at hr
      cases out with
      | success id => simpa using hr
      | seenSkip => exact ih _ _ hr
      | failed e => exact ih _ _ hr

theorem fetchRandomRelease_length_le (envs : Nat → AttemptEnv) (st : DiscogsState)
    (h : st.seenReleases.length ≤ 2000) :
    (fetchRandomRelease envs st).1.seenReleases.length ≤ 2000 :=
  fetchGo_length_le envs maxRetries 0 st h

theorem fetchRandomVideo_length_le (st : ChannelState) (k : Nat)
    (h : st.seenVideos.length ≤ 500) :
    (fetchRandomVideo st k).1.seenVideos.length ≤ 500 := by
  unfold fetchRandomVideo
  split
  · exact h
  · dsimp only
    split
    · exact h
    · exact addSeenOp_length_le 500 _ _ h

theorem foldl_fetchRandomRelease_length_le (runs : List (Nat → AttemptEnv)) :
    ∀ st : DiscogsState, st.seenReleases.length ≤ 2000 →
      ((runs.foldl (fun s e => (fetchRandomRelease e s).1) st).seenReleases).length ≤ 2000 := by
  induction runs with
  | nil => intro st h; simpa using h
  | cons e rest ih =>
      intro st h
      simp only [List.foldl_cons]
      exact ih _ (fetchRandomRelease_length_le e st h)

theorem foldl_fetchRandomVideo_length_le (ks : List Nat) :
    ∀ st : ChannelState, st.seenVideos.length ≤ 500 →
      ((ks.foldl (fun s k => (fetchRandomVideo s k).1) st).seenVideos).length ≤ 500 := by
  induction ks with
  | nil => intro st h; simpa using h
  | cons k rest ih =>
      intro st h
      simp only [List.foldl_cons]
      exact ih _ (fetchRandomVideo_length_le st k h)

/-- Claim C4: for every sequence of sample operations: after each
operation completes, the seen-id set's size never exceeds its configured
capacity (2000 for Discogs releases, 500 for channel videos), and when an
insertion would exceed capacity the entry evicted is the oldest by
insertion order. -/
theorem seen_capacity_never_exceeded
    (runs : List (Nat → AttemptEnv)) (st : DiscogsState)
    (ks : List Nat) (cst : ChannelState)
    (cap : Nat) (seen : List Nat) (id : Nat)
    (hd : st.seenReleases.length ≤ 2000)
    (hc : cst.seenVideos.length ≤ 500)
    (hid : id ∉ seen) (hlen : seen.length = cap) (hcap : 0 < cap) :
    ((runs.foldl (fun s e => (fetchRandomRelease e s).1) st).seenReleases).length ≤ 2000
    ∧ ((ks.foldl (fun s k => (fetchRandomVideo s k).1) cst).seenVideos).length ≤ 500
    ∧ addSeenOp cap seen id = seen.tail ++ [id] :=
  ⟨foldl_fetchRandomRelease_length_le runs st hd,
   foldl_fetchRandomVideo_length_le ks cst hc,
   addSeenOp_evicts_oldest cap seen id hid hlen hcap⟩

/-- Claim C4 at concrete inputs: one Discogs sample from a seen set of
size 1, two channel samples from an empty seen set, and an insertion into
a full 2-element set evicting its oldest entry. -/
theorem seen_capacity_never_exceeded_witness :
    ((([fun _ => ⟨Except.ok (1, 3), Except.ok (some 3), 0⟩] :
          List (Nat → AttemptEnv)).foldl
        (fun s e => (fetchRandomRelease e s).1)
        ⟨none, none, [1], 0, 0⟩).seenReleases).length ≤ 2000
    ∧ ((([0, 1] : List Nat).foldl (fun s k => (fetchRandomVideo s k).1)
        ⟨[4, 8], []⟩).seenVideos).length ≤ 500
    ∧ addSeenOp 2 [5, 6] 9 = [6, 9] :=
  seen_capacity_never_exceeded
    [fun _ => ⟨Except.ok (1, 3), Except.ok (some 3), 0⟩]
    ⟨none, none, [1], 0, 0⟩ [0, 1] ⟨[4, 8], []⟩ 2 [5, 6] 9
    (by decide) (by decide) (by decide) (by decide) (by decide)

/-! ## Claims C10 and C2: fetchRandomRelease terminal behaviours -/

/-- Oracle for a catalog whose single candidate release (id 7) is already
in the seen set of `stUndef`: every attempt's page fetch returns id 7. -/
def envUndef : Nat → AttemptEnv := fun _ => ⟨Except.ok (1, 7), Except.ok (some 7), 0⟩

/-- discogsService state with the probe count cached and release 7 seen. -/
def stUndef : DiscogsState := ⟨some 1, none, [7], 0, 0⟩

/-- Claim C10: fetchRandomRelease can resolve to undefined without
throwing: for some execution in which the final retry attempt
(attempt == maxRetries) selects a release whose id is already in
seenReleases, the retry loop is exited via continue and the function falls
through its loop end, returning undefined rather than a CatalogItem or an
error; the Stage-1 consumer must therefore guard against a missing item
(the `album &&` guard skips the push, leaving both queues untouched). -/
theorem fetchRandomRelease_can_resolve_undefined :
    (fetchRandomRelease envUndef stUndef).2 = Except.ok none
    ∧ (bufRun bufInit [.startPipeline, .dBegin 1, .dNone 1]).albumQueue = []
    ∧ (bufRun bufInit [.startPipeline, .dBegin 1, .dNone 1]).readyQueue = [] := by
  refine ⟨rfl, rfl, rfl⟩

/-- Oracle for a criteria with zero catalog matches: every attempt's
probe rejects with the `ZERO_RESULTS` error. -/
def envZero : Nat → AttemptEnv := fun _ => ⟨Except.error FetchErr.zeroResults, Except.ok none, 0⟩

/-- A fresh discogsService state: nothing cached, nothing pending,
nothing seen. -/
def dInit : DiscogsState := ⟨none, none, [], 0, 0⟩

/-- Claim C2 counterexample: with every probe returning zero results,
fetchRandomRelease does NOT fail on the first probe without retrying — it
issues six probe calls (the initial attempt plus maxRetries = 5 retries)
before throwing the terminal ZERO_RESULTS error. -/
theorem zeroResults_probe_retried_counterexample :
    (fetchRandomRelease envZero dInit).1.probeCalls = 6
    ∧ (fetchRandomRelease envZero dInit).1.probeCalls ≠ 1
    ∧ (fetchRandomRelease envZero dInit).2 = Except.error FetchErr.zeroResults := by
  refine ⟨rfl, by decide, rfl⟩

/-- Claim C2 as amended: for every criteria whose catalog probe returns
zero matches, each attempt's probe fails with the terminal ZERO_RESULTS
error, the sampler retries it like any other error, and only after
exhausting all retries (six probes in total) does fetchRandomRelease
throw ZERO_RESULTS; the Stage-1 loop, on receiving it, emits the terminal
zeroResults event and stops the pipeline. -/
theorem zeroResults_terminal_after_retries (envs : Nat → AttemptEnv)
    (h : ∀ n, (envs n).probe = Except.error FetchErr.zeroResults) :
    fetchRandomRelease envs dInit
      = (⟨none, none, [], 6, 0⟩, Except.error FetchErr.zeroResults)
    ∧ (bufRun bufInit [.startPipeline, .dBegin 1, .dErr 1 .zeroResults]).events
        = [PipeEvent.zeroResults]
    ∧ (bufRun bufInit [.startPipeline, .dBegin 1, .dErr 1 .zeroResults]).isRunning = false
    ∧ (bufRun bufInit [.startPipeline, .dBegin 1, .dErr 1 .zeroResults]).generation = 2 := by
  have step : ∀ (k : Nat) (c : Nat), runAttempt ⟨none, none, [], c, 0⟩ (envs k)
      = (⟨none, none, [], c + 1, 0⟩, .failed .zeroResults) := by
    intro k c
    unfold runAttempt
    rw [h k]
  refine ⟨?_, rfl, rfl, rfl⟩
  unfold fetchRandomRelease maxRetries
  unfold fetchGo
  rw [show dInit = ⟨none, none, [], 0, 0⟩ from rfl, step 0 0]
  unfold fetchGo
  rw [step 1 1]
  unfold fetchGo
  rw [step 2 2]
  unfold fetchGo
  rw [step 3 3]
  unfold fetchGo
  rw [step 4 4]
  unfold fetchGo
  rw [step 5 5]

/-- Claim C2 witness for the amended theorem, at the canonical
zero-matches oracle. -/
theorem zeroResults_terminal_after_retries_witness :
    (∀ n, (envZero n).probe = Except.error FetchErr.zeroResults)
    ∧ fetchRandomRelease envZero dInit
        = (⟨none, none, [], 6, 0⟩, Except.error FetchErr.zeroResults) :=
  ⟨fun _ => rfl, (zeroResults_terminal_after_retries envZero (fun _ => rfl)).1⟩

/-! ## Claim C5: probe deduplication -/

theorem probeArrive_foldl (cs : List Nat) :
    ∀ s : ProbeSysState, s.cache = none → s.pending = some 0 →
      cs.foldl probeArrive s = { s with waiting := s.waiting ++ cs.map (fun c => (c, 0)) } := by
  induction cs with
  | nil => intro s _ _; simp
  | cons c cs ih =>
      intro s hc hp
      have harr : probeArrive s c = { s with waiting := s.waiting ++ [(c, 0)] } := by
        unfold probeArrive
        rw [hc, hp]
      simp only [List.foldl_cons, harr]
      rw [ih { s with waiting := s.waiting ++ [(c, 0)] } hc hp]
      simp

/-- Claim C5: for every criteria key, at most one probe request is in
flight at any time: when two or more fetchRandomRelease calls with the
identical criteria key run concurrently and no probe result is cached,
exactly one probe network call is issued and all callers await the same
pending promise and observe the same outcome (the pending entry is
removed only on probe failure). -/
theorem probe_dedup_single_call (callers : List Nat) (h : callers ≠ []) :
    (probeFinal callers).probeCalls = 1
    ∧ (probeFinal callers).pending = some 0
    ∧ (probeFinal callers).waiting = callers.map (fun c => (c, 0))
    ∧ (∀ items,
        (probeResolveOk (probeFinal callers) items).1.pending = some 0
        ∧ (probeResolveOk (probeFinal callers) items).1.cache = some (min items 10000)
        ∧ (probeResolveOk (probeFinal callers) items).2
            = callers.map (fun c => (c, items)))
    ∧ (probeResolveFail (probeFinal callers)).1.pending = none := by
  cases callers with
  | nil => exact absurd rfl h
  | cons c cs =>
      have h1 : probeArrive probeInit c =
          { cache := none, pending := some 0, nextToken := 1,
            probeCalls := 1, waiting := [(c, 0)] } := rfl
      have h2 : probeFinal (c :: cs) =
          { cache := none, pending := some 0, nextToken := 1,
            probeCalls := 1, waiting := (c :: cs).map (fun x => (x, 0)) } := by
        unfold probeFinal
        rw [List.foldl_cons, h1, probeArrive_foldl cs _ rfl rfl]
        simp
      refine ⟨by rw [h2], by rw [h2], by rw [h2], fun items => ⟨?_, ?_, ?_⟩, by rw [h2]; rfl⟩
      · rw [h2]; rfl
      · rw [h2]; rfl
      · rw [h2]
        simp [probeResolveOk]

/-- Claim C5 witness: two concurrent callers (3 and 4) arriving before
the probe resolves trigger exactly one probe call and both await token 0. -/
theorem probe_dedup_single_call_witness :
    ([3, 4] : List Nat) ≠ []
    ∧ (probeFinal [3, 4]).probeCalls = 1
    ∧ (probeFinal [3, 4]).pending = some 0
    ∧ (probeFinal [3, 4]).waiting = [(3, 0), (4, 0)] := by
  have h := probe_dedup_single_call [3, 4] (by decide)
  exact ⟨by decide, h.1, h.2.1, by rw [h.2.2.1]; rfl⟩

/-! ## Claim C8: exhausted-novelty fallback -/

/-- Oracle whose page fetches always return release 42. -/
def envNoFallback : Nat → AttemptEnv := fun _ => ⟨Except.ok (1, 42), Except.ok (some 42), 0⟩

/-- discogsService state with the probe cached and release 42 seen. -/
def stNoFallback : DiscogsState := ⟨some 1, none, [42], 0, 0⟩

/-- Claim C8 counterexample: when the fetched page's only candidate
(release 42, with `per_page = 1`) is already in the Discogs seen set, the
Discogs sampler does NOT fall back to returning it — every attempt takes
the `continue` branch and the call resolves to undefined. -/
theorem discogs_no_seen_fallback :
    (fetchRandomRelease envNoFallback stNoFallback).2 = Except.ok none
    ∧ (fetchRandomRelease envNoFallback stNoFallback).2 ≠ Except.ok (some 42) := by
  refine ⟨rfl, fun h => ?_⟩
  rw [show (fetchRandomRelease envNoFallback stNoFallback).2 = Except.ok none from rfl] at h
  simp at h

theorem fetchRandomVideo_all_seen (st : ChannelState) (k : Nat)
    (hne : st.pool ≠ []) (hall : ∀ v ∈ st.pool, v ∈ st.seenVideos) :
    ∃ v ∈ st.pool, (fetchRandomVideo st k).2 = some v ∧ v ∈ st.seenVideos := by
  have hf : st.pool.isEmpty = false := by
    cases hp : st.pool
    · exact absurd hp hne
    · rfl
  have hunseen : st.pool.filter (fun v => v ∉ st.seenVideos) = [] := by
    rw [List.filter_eq_nil_iff]
    intro a ha
    simpa using hall a ha
  have hlt : k % st.pool.length < st.pool.length :=
    Nat.mod_lt _ (List.length_pos.mpr hne)
  have hget : st.pool.get? (k % st.pool.length) = some (st.pool.get ⟨k % st.pool.length, hlt⟩) :=
    List.get?_eq_get hlt
  refine ⟨st.pool.get ⟨k % st.pool.length, hlt⟩, List.get_mem _ _ _, ?_,
    hall _ (List.get_mem _ _ _)⟩
  simp only [fetchRandomVideo, hf, hunseen, Bool.false_eq_true, if_false,
    List.isEmpty_nil, if_true, hget]

theorem runAttempt_skips_seen (st2 : DiscogsState) (env2 : AttemptEnv) (m id : Nat)
    (hc : st2.totalPagesCache = some m) (hp : env2.pageFetch = Except.ok (some id))
    (hs : id ∈ st2.seenReleases) : (runAttempt st2 env2).2 = .seenSkip := by
  rcases st2 with ⟨tpc, pp, seen, pcs, pgs⟩
  simp only at hc hs
  subst hc
  show (runAttemptAfterProbe ⟨some m, pp, seen, pcs, pgs⟩ env2 m none).2 = .seenSkip
  unfold runAttemptAfterProbe
  rw [if_pos (Or.inr rfl), hp]
  show (seenCheck ⟨some m, pp, seen, pcs, pgs + 1⟩ id).2 = .seenSkip
  simp [seenCheck, hs]

/-- Claim C8 as amended: the exhausted-novelty fallback exists only in
the channel sampler: when every candidate in the channel pool is already
seen, fetchRandomVideo falls back to the full pool and returns one of the
already-seen candidates; the Discogs sampler instead skips a seen
candidate (`continue`) and retries with a fresh random page, producing no
item from that attempt. -/
theorem seen_fallback_channel_only
    (st : ChannelState) (k : Nat)
    (st2 : DiscogsState) (env2 : AttemptEnv) (m id : Nat)
    (hne : st.pool ≠ [])
    (hall : ∀ v ∈ st.pool, v ∈ st.seenVideos)
    (hc : st2.totalPagesCache = some m)
    (hp : env2.pageFetch = Except.ok (some id))
    (hs : id ∈ st2.seenReleases) :
    (∃ v ∈ st.pool, (fetchRandomVideo st k).2 = some v ∧ v ∈ st.seenVideos)
    ∧ (runAttempt st2 env2).2 = .seenSkip :=
  ⟨fetchRandomVideo_all_seen st k hne hall,
   runAttempt_skips_seen st2 env2 m id hc hp hs⟩

/-- Claim C8 witness: a fully-seen channel pool still yields a video,
while the Discogs sampler skips its seen candidate. -/
theorem seen_fallback_channel_only_witness :
    (([4, 8] : List Nat) ≠ []
      ∧ (∀ v ∈ ([4, 8] : List Nat), v ∈ ([4, 8, 9] : List Nat)))
    ∧ ((∃ v ∈ (⟨[4, 8], [4, 8, 9]⟩ : ChannelState).pool,
          (fetchRandomVideo ⟨[4, 8], [4, 8, 9]⟩ 1).2 = some v
          ∧ v ∈ (⟨[4, 8], [4, 8, 9]⟩ : ChannelState).seenVideos)
        ∧ (runAttempt ⟨some 3, none, [11], 0, 0⟩ ⟨Except.ok (3, 11), Except.ok (some 11), 0⟩).2
            = .seenSkip) :=
  ⟨⟨by decide, by decide⟩,
   seen_fallback_channel_only ⟨[4, 8], [4, 8, 9]⟩ 1 ⟨some 3, none, [11], 0, 0⟩
     ⟨Except.ok (3, 11), Except.ok (some 11), 0⟩ 3 11
     (by decide) (by decide) rfl rfl (by decide)⟩

/-! ## Claims C3 and C1: pipeline queue properties -/

/-- Every record in the ready queue carries a resolvable media id. -/
def ReadyMediaInv (s : BufState) : Prop :=
  ∀ r ∈ s.readyQueue, r.videoId.isSome ∨ r.album.youtubePlaylistId.isSome

theorem bufStep_media (s : BufState) (a : BufAct) (h : ReadyMediaInv s) :
    ReadyMediaInv (bufStep s a) := by
  intro r hr
  cases a <;> simp only [bufStep] at hr <;> repeat' split at hr
  all_goals
    first
      | exact h r hr
      | (simp only [List.mem_append, List.mem_singleton] at hr
         rcases hr with hr | hr
         · exact h r hr
         · subst hr
           first
             | exact Or.inl rfl
             | assumption)
      | simp at hr

theorem bufRun_media (acts : List BufAct) :
    ∀ s : BufState, ReadyMediaInv s → ReadyMediaInv (bufRun s acts) := by
  induction acts with
  | nil => intro s h; exact h
  | cons a rest ih =>
      intro s h
      exact ih (bufStep s a) (bufStep_media s a h)

/-- Claim C3: every record pushed onto the ready queue, by any pipeline
loop (Discogs Stage 2 or the channel loop), carries at least one
resolvable media identifier: either a non-null videoId, or an album with
a non-null youtubePlaylistId; records with neither are never enqueued. -/
theorem readyQueue_records_have_media (acts : List BufAct) (r : ReadyRecord)
    (hr : r ∈ (bufRun bufInit acts).readyQueue) :
    r.videoId.isSome ∨ r.album.youtubePlaylistId.isSome :=
  bufRun_media acts bufInit (by intro x hx; simp [bufInit] at hx) r hr

/-- Claim C3 witness: the record produced by a channel-loop push in a
concrete trace has a video id. -/
theorem readyQueue_records_have_media_witness :
    (⟨⟨[5], none, 1⟩, some 5⟩ : ReadyRecord) ∈
      (bufRun bufInit [.startPipeline, .chBegin 1, .chOk 1 5]).readyQueue
    ∧ ((some 5 : Option Nat).isSome
        ∨ (⟨⟨[5], none, 1⟩, some 5⟩ : ReadyRecord).album.youtubePlaylistId.isSome) :=
  ⟨by decide,
   readyQueue_records_have_media [.startPipeline, .chBegin 1, .chOk 1 5]
     ⟨⟨[5], none, 1⟩, some 5⟩ (by decide)⟩

/-- The interleaving that exhibits the missing generation re-check: the
generation-1 Discogs loop is mid-await when the pipeline is reset to
generation 2; its fetch then lands in the post-reset album queue, and the
generation-2 Stage-2 loop promotes it into the post-reset ready queue. -/
def leakTrace : List BufAct :=
  [.startPipeline, .dBegin 1, .startPipeline, .dOk 1 [9] none, .yStep 2 0]

/-- Claim C1 (code bug): after `leakTrace`, the current generation is 2,
yet the post-reset ready queue contains a record whose album was sampled
under generation 1 — the Discogs Stage-1 loop pushed it without
re-checking the generation after its await, so a stale loop does perform
a queue write and a generation-1 ReadyRecord is observed post-reset,
contradicting the claimed invariant. -/
theorem stale_generation_record_reaches_ready_queue :
    (bufRun bufInit leakTrace).generation = 2
    ∧ (bufRun bufInit leakTrace).readyQueue.map (fun r => r.album.sampledGen) = [1]
    ∧ (bufRun bufInit leakTrace).albumQueue = [] := by
  refine ⟨by decide, by decide, by decide⟩

/-! ## Claims C6 and C7 traces -/

/-- Twelve ready slots, no players, no creations in flight. -/
def feedStart : FeedState :=
  ⟨List.replicate 12 ⟨true, false, false⟩, 0, false⟩

/-- Arbitrary-jump trace: visit position 2, let all five creations
resolve, jump to position 7, let its creations resolve. -/
def feedTraceJump : List FeedAct :=
  [.visible 2, .resolveCreate 1, .resolveCreate 2, .resolveCreate 3,
   .resolveCreate 4, .resolveCreate 5,
   .visible 7, .resolveCreate 6, .resolveCreate 7, .resolveCreate 8,
   .resolveCreate 9, .resolveCreate 10]

/-- Unit-step trace with one slow creation: positions 0 → 1 → 2 → 3; the
creation at slot 0 (started by `visible 1`) is still in flight when
`visible 2` runs `destroyPlayerIfExists(0)` — a no-op, since
`playerInstance` is null — and resolves only after `visible 3`. -/
def feedTraceInFlight : List FeedAct :=
  [.visible 1, .resolveCreate 1, .resolveCreate 2, .resolveCreate 3,
   .resolveCreate 4, .visible 2, .visible 3, .resolveCreate 0]

/-- Slot 0 still loading, slots 1-11 ready. -/
def feedStartLoading : FeedState :=
  ⟨⟨false, false, false⟩ :: List.replicate 11 ⟨true, false, false⟩, 0, false⟩

/-- Unit-step trace where slot 0's data arrives at distance 2 behind the
position: `renderCard` then creates its player at slot
`currentIndex - 2` (feedManager.js:466-468), outside `[i-1, i+3]`. -/
def feedTraceRenderCard : List FeedAct :=
  [.visible 1, .visible 2, .resolveData 0, .resolveCreate 0, .visible 3]

/-- Claim C6 (code bug): the windowed-cache invariant fails on the code.
(1) After the arbitrary jump 2 → 7, nine players are alive — more than
the window width 5 — including slot 1, which is below `7-2` yet neither
destroyed nor cleared, because handleCardVisible destroys only the two
slots `i-2` and `i+4`.  (2) Even under pure unit steps 0 → 1 → 2 → 3, a
player creation that is still in flight when `destroyPlayerIfExists`
visits its slot survives (the destroy returns early on a null
`playerInstance` without cancelling `_creatingPromise`) and later
materializes a live player at slot 0, below `currentIndex - 2`, never to
be destroyed by further forward steps.  (3) A loading slot whose data
arrives at distance 2 behind the position gets a player created by
`renderCard` at slot `i-2`, outside the window, leaking the same way. -/
theorem player_window_leaks :
    (aliveIdx (runFeed feedStart feedTraceJump) = [1, 2, 3, 4, 6, 7, 8, 9, 10]
      ∧ (runFeed feedStart feedTraceJump).currentIndex = 7
      ∧ 5 < (aliveIdx (runFeed feedStart feedTraceJump)).length
      ∧ playerAt (runFeed feedStart feedTraceJump).cards 1 = true
      ∧ (1 : Int) < (7 : Int) - 2)
    ∧ (playerAt (runFeed feedStart feedTraceInFlight).cards 0 = true
      ∧ (runFeed feedStart feedTraceInFlight).currentIndex = 3
      ∧ (0 : Int) < (3 : Int) - 2)
    ∧ (playerAt (runFeed feedStartLoading feedTraceRenderCard).cards 0 = true
      ∧ (runFeed feedStartLoading feedTraceRenderCard).currentIndex = 3
      ∧ (0 : Int) < (3 : Int) - 2) := by
  refine ⟨⟨by decide, by decide, by decide, by decide, by decide⟩,
    ⟨by decide, by decide, by decide⟩, ⟨by decide, by decide, by decide⟩⟩

/-! ## Claim C7: concurrent rateLimitedFetch entries

`rateLimitedFetch` reads `lastDiscogsCall` at entry and writes it only
AFTER its throttle sleep (discogsService.js:171-184).  A caller whose
`elapsed < 400` therefore suspends with the deadline `last + 400`
computed from the stale value, and a second caller entering during that
sleep reads the SAME stale `lastDiscogsCall` and computes the same
deadline: both dispatch together.  Concurrent entries are reachable: a
pre-reset in-flight `fetchRandomRelease` keeps retrying (its loop is
generation-unaware) while the new generation's Discogs loop issues its
own calls, and both go through this one client.  The model below tracks
the clock, `lastDiscogsCall`, the set of sleepers with their deadlines,
and the dispatch log; `enter` is the synchronous prefix up to the
`await`, `wake` the timer firing at its deadline. -/

/-- Shared rate-limiter state: current clock, `lastDiscogsCall`, sleeping
callers with their wake deadlines, and the dispatch log in time order. -/
structure RLState where
  time : Nat
  last : Nat
  sleeping : List (Nat × Nat)
  log : List (Nat × Nat)
  deriving Repr, DecidableEq

/-- Before any call: `lastDiscogsCall = 0`. -/
def rlInit : RLState := ⟨0, 0, [], []⟩

/-- Scheduler actions: caller `c` enters `rateLimitedFetch` at
`Date.now() = now`, or a sleeping caller's timer fires. -/
inductive RLAct where
  | enter (c now : Nat)
  | wake (c : Nat)
  deriving Repr, DecidableEq

/-- One step.  `enter`: with `elapsed = now - last`, either sleep until
`last + 400` (leaving `lastDiscogsCall` untouched until the wake) or,
when `elapsed ≥ 400`, set `lastDiscogsCall = now` and dispatch at once —
entry and dispatch are one synchronous block in that branch.  `wake`:
the timer fires at its deadline `w`; the caller sets
`lastDiscogsCall = Date.now() = w` and dispatches.  Guards keep the
clock monotone, so every trace is realizable in time order. -/
def rlStep (s : RLState) : RLAct → RLState
  | .enter c now =>
      if s.time ≤ now then
        if now - s.last < 400 then
          { s with time := now, sleeping := s.sleeping ++ [(c, s.last + 400)] }
        else
          { s with time := now, last := now, log := s.log ++ [(c, now)] }
      else s
  | .wake c =>
      match s.sleeping.find? (fun w => w.1 = c) with
      | none => s
      | some w =>
          if s.time ≤ w.2 then
            { s with time := w.2, last := w.2,
                     sleeping := s.sleeping.erase w,
                     log := s.log ++ [(c, w.2)] }
          else s

/-- Run a scheduled rate-limiter trace. -/
def rlRun (s : RLState) (acts : List RLAct) : RLState :=
  acts.foldl rlStep s

/-- Caller 0 dispatches at 1000; callers 1 and 2 enter at 1100 and 1200,
both inside the floor, both reading the stale `lastDiscogsCall = 1000`. -/
def rlRaceTrace : List RLAct :=
  [.enter 0 1000, .enter 1 1100, .enter 2 1200, .wake 1, .wake 2]

/-- Claim C7 counterexample: two calls that enter `rateLimitedFetch`
during the same throttle sleep both compute the deadline `1000 + 400`
from the stale `lastDiscogsCall` and dispatch at the same instant 1400 —
zero milliseconds apart, violating the process-wide 400 ms floor. -/
theorem concurrent_dispatches_within_floor :
    (rlRun rlInit rlRaceTrace).log = [(0, 1000), (1, 1400), (2, 1400)]
    ∧ (rlRun rlInit rlRaceTrace).log.get? 1 = some (1, 1400)
    ∧ (rlRun rlInit rlRaceTrace).log.get? 2 = some (2, 1400)
    ∧ ¬(1400 + 400 ≤ 1400) := by
  refine ⟨by decide, by decide, by decide, by decide⟩

end TikTokDiscogs
